import Mathlib

/-!
Verification of the microfeedback route dispatcher and moderation pipeline
(src/index.js) against its specification.

The JavaScript handler is shallowly embedded as pure Lean functions.
External calls (body parsing, the Perspective toxicity API, the Akismet
spam API, the caller-supplied backend delegate) are modelled as oracles
carried in an `Env` record: each oracle holds the outcome the external
collaborator would produce (`Except JsError v` — a resolved value or a
thrown error).  The handler itself is translated line by line from
src/index.js; the trace of delegate/check invocations is returned
alongside the response so that "is invoked exactly once / never invoked"
claims are statable.
-/

namespace MicroWishes

/-- JavaScript values as relevant to this handler: JSON values plus
`undefined` (the result of accessing a missing property). -/
inductive JsonVal where
  | null : JsonVal
  | undefined : JsonVal
  | bool : Bool → JsonVal
  | num : ℚ → JsonVal
  | str : String → JsonVal
  | arr : List JsonVal → JsonVal
  | obj : List (String × JsonVal) → JsonVal

/-- JavaScript truthiness: `undefined`, `null`, `false`, `0`, `""` are
falsy; every object and array (even empty) is truthy. -/
def truthy : JsonVal → Bool
  | .null => false
  | .undefined => false
  | .bool b => b
  | .num q => decide (q ≠ 0)
  | .str s => decide (s ≠ "")
  | .arr _ => true
  | .obj _ => true

/-- First-match lookup of a key in a JS object's field list; a missing key
reads as `undefined`. -/
def jsLookup : List (String × JsonVal) → String → JsonVal
  | [], _ => .undefined
  | (k, v) :: rest, key => if k = key then v else jsLookup rest key

/-- A thrown JavaScript error as observed by `handleErrors`: an optional
numeric `statusCode` attribute (absent on plain errors, set by
`createError`) and a `message`. -/
structure JsError where
  statusCode : Option ℚ
  message : String

/-- The `TypeError` thrown by a property access on `null` or `undefined`.
Its exact message is irrelevant to every claim; it carries no
`statusCode`. -/
def typeError : JsError := ⟨none, "Cannot read property of null or undefined"⟩

/-- Property access `v[k]`: throws a `TypeError` on `null`/`undefined`,
reads the field list of an object, and yields `undefined` on every other
primitive. -/
def jsAccess (v : JsonVal) (k : String) : Except JsError JsonVal :=
  match v with
  | .null => .error typeError
  | .undefined => .error typeError
  | .obj fields => .ok (jsLookup fields k)
  | _ => .ok .undefined

/-- List of keys of a JS object (for non-objects, no keys). -/
def jsKeys : JsonVal → List String
  | .obj fields => fields.map Prod.fst
  | _ => []

/-- An inbound HTTP request as the handler consumes it: the method, the
outcome of `await json(req)` (the body parser is an external
collaborator: it resolves to the parsed value or throws), and the headers
the spam stage forwards. -/
structure Request where
  method : String
  jsonResult : Except JsError JsonVal
  origin : Option String
  remoteAddr : Option String
  userAgent : Option String
  referer : Option String

/-- Configuration and external-call oracles for one request.
`perspectiveEnabled` / `akismetEnabled` are the module-level flags
computed from the environment (lines 9-10 of src/index.js);
`ALLOW_SPAM` is the raw environment variable (`none` = unset);
`version` is `pkg.version`; `attributes` is the optional backend
metadata object (`JsonVal.undefined` when not supplied).
`perspectiveResponse` is the value `perspectiveClient.analyze` resolves
to (or the error it rejects with); `akismetResponse` likewise for
`akismetClient.checkSpam` (which resolves to a boolean verdict);
`backend` is the caller-supplied delegate, receiving the moderation
context and the request handle (the response handle is an opaque stream
and carries no data into the result). -/
structure Env where
  perspectiveEnabled : Bool
  akismetEnabled : Bool
  ALLOW_SPAM : Option String
  version : String
  attributes : JsonVal
  perspectiveResponse : Except JsError JsonVal
  akismetResponse : Except JsError Bool
  backend : JsonVal → Request → Except JsError JsonVal

/-- Evaluation of `Boolean(process.env.ALLOW_SPAM && process.env.ALLOW_SPAM !== 'false')`:
unset or empty or the literal string "false" give `false`, anything else
`true`. -/
def allowSpamOf : Option String → Bool
  | none => false
  | some s => decide (s ≠ "") && decide (s ≠ "false")

/-- Extraction `response.attributeScores.TOXICITY.summaryScore.value`
from the Perspective API response: each intermediate access throws a
`TypeError` when the step before produced `null`/`undefined` (the throw
is caught by the surrounding `try`). -/
def extractScore (response : JsonVal) : Except JsError JsonVal := do
  let a ← jsAccess response "attributeScores"
  let b ← jsAccess a "TOXICITY"
  let c ← jsAccess b "summaryScore"
  jsAccess c "value"

/-- Toxicity stage (lines 65-76): the final value of the `perspective`
variable.  If the flag is off the variable stays `null`; if the call
rejects or the extraction throws, the error is logged and the variable
stays `null`; on success it becomes `{toxicity: value}`. -/
def toxicityStage (env : Env) : JsonVal :=
  if env.perspectiveEnabled then
    match env.perspectiveResponse with
    | .error _ => .null
    | .ok response =>
      match extractScore response with
      | .error _ => .null
      | .ok v => .obj [("toxicity", v)]
  else .null

/-- Spam stage (lines 77-103): the final value of the `akismet` variable,
or the thrown `createError(400, 'Spam detected.')`.  `spam` starts as
`null` and is only assigned on a successful `checkSpam`, so after a
rejected call the `spam !== null` guard fails and `akismet` stays
`null`.  On a successful verdict: spam with the override inactive throws;
otherwise `akismet` becomes `{spam: <boolean>}`. -/
def spamStage (env : Env) : Except JsError JsonVal :=
  if env.akismetEnabled then
    match env.akismetResponse with
    | .error _ => .ok .null
    | .ok spam =>
      if spam && !(allowSpamOf env.ALLOW_SPAM) then
        .error ⟨some 400, "Spam detected."⟩
      else
        .ok (.obj [("spam", .bool spam)])
  else .ok .null

/-- Outcome of one request: HTTP status and JSON body of the single
response. -/
structure HOut where
  status : ℚ
  body : JsonVal

/-- Invocation trace of one request: the (context, request handle) pairs
the backend delegate was invoked with (in order), and how many times
each external checker was called. -/
structure Trace where
  backendCalls : List (JsonVal × Request)
  perspectiveCalls : ℕ
  akismetCalls : ℕ

/-- The empty trace. -/
def Trace.empty : Trace := ⟨[], 0, 0⟩

/-- The info envelope of the GET branch (lines 46-58): the welcome
message, the `core` block, and `backend: attributes` when `attributes`
is truthy. -/
def infoEnvelope (env : Env) : JsonVal :=
  let base : List (String × JsonVal) :=
    [("message", .str "Welcome to the microfeedback API. Send a POST request to send feedback."),
     ("core", .obj
       [("version", .str env.version),
        ("perspectiveEnabled", .bool env.perspectiveEnabled),
        ("akismetEnabled", .bool env.akismetEnabled)])]
  if truthy env.attributes then .obj (base ++ [("backend", env.attributes)])
  else .obj base

/-- The POST branch (lines 60-109): parse, validate `body`, run the two
moderation stages, invoke the delegate, shape the 201 envelope.  Returns
the sent response or the escaping error, together with the invocation
trace. -/
def postFlow (env : Env) (req : Request) : Except JsError HOut × Trace :=
  let checks : Trace :=
    ⟨[], if env.perspectiveEnabled then 1 else 0, if env.akismetEnabled then 1 else 0⟩
  match req.jsonResult with
  | .error e => (.error e, Trace.empty)
  | .ok input =>
    match jsAccess input "body" with
    | .error e => (.error e, Trace.empty)
    | .ok bodyV =>
      if !(truthy bodyV) then
        (.error ⟨some 422, "\"body\" is required in request payload"⟩, Trace.empty)
      else
        let perspective := toxicityStage env
        match spamStage env with
        | .error e => (.error e, checks)
        | .ok akismet =>
          let ctx : JsonVal :=
            .obj [("input", input), ("perspective", perspective), ("akismet", akismet)]
          match env.backend ctx req with
          | .error e => (.error e, { checks with backendCalls := [(ctx, req)] })
          | .ok result =>
            let responseData : JsonVal :=
              if truthy env.attributes then
                .obj [("result", result), ("backend", env.attributes)]
              else
                .obj [("result", result)]
            (.ok ⟨201, responseData⟩, { checks with backendCalls := [(ctx, req)] })

/-- The routing body wrapped by `cors` (lines 44-113): the OPTIONS
preflight is answered by the cors wrapper before method dispatch; GET
builds the info envelope; POST runs `postFlow`; every other method
throws 405. -/
def dispatch (env : Env) (req : Request) : Except JsError HOut × Trace :=
  if req.method = "OPTIONS" then
    (.ok ⟨200, .str ""⟩, Trace.empty)
  else if req.method = "GET" then
    (.ok ⟨200, infoEnvelope env⟩, Trace.empty)
  else if req.method = "POST" then
    postFlow env req
  else
    (.error ⟨some 405, "Method " ++ req.method ++ " not allowed."⟩, Trace.empty)

/-- The status chosen by the error boundary: `error.statusCode || 500` —
an absent or zero (falsy) `statusCode` yields 500. -/
def statusOr500 : Option ℚ → ℚ
  | none => 500
  | some c => if c = 0 then 500 else c

/-- The error boundary `handleErrors` (lines 19-32): a caught error is
rendered as `{status, message}` with the status from `statusOr500`; a
normal return passes through. -/
def handleErrors : Except JsError HOut → HOut
  | .ok out => out
  | .error e =>
    let status := statusOr500 e.statusCode
    ⟨status, .obj [("status", .num status), ("message", .str e.message)]⟩

/-- The complete exported handler `handleErrors(cors(...))`: one response
per request, plus the invocation trace. -/
def handle (env : Env) (req : Request) : HOut × Trace :=
  let (r, tr) := dispatch env req
  (handleErrors r, tr)

/-! Concrete environments and requests used by witnesses and
counterexamples. -/

/-- A delegate that always succeeds with the string "ok". -/
def okBackend : JsonVal → Request → Except JsError JsonVal := fun _ _ => .ok (.str "ok")

/-- Baseline environment: both checks disabled, no attributes, the
always-succeeding delegate. -/
def baseEnv : Env :=
  { perspectiveEnabled := false
    akismetEnabled := false
    ALLOW_SPAM := none
    version := "1.0.0"
    attributes := .undefined
    perspectiveResponse := .error ⟨none, "disabled"⟩
    akismetResponse := .error ⟨none, "disabled"⟩
    backend := okBackend }

/-- Baseline request: a POST whose parsed JSON body is
`{"body": "nice app!"}`. -/
def baseReq : Request :=
  { method := "POST"
    jsonResult := .ok (.obj [("body", .str "nice app!")])
    origin := none, remoteAddr := none, userAgent := none, referer := none }

/-! General lemmas about the handler, shared between the claims. -/

/-- Unfolding of the outer wrapper: the response is the error-rendered
dispatch result, the trace passes through. -/
theorem handle_eq (env : Env) (req : Request) :
    handle env req = (handleErrors (dispatch env req).1, (dispatch env req).2) := rfl

/-- Dispatch of a POST request goes to the POST branch. -/
theorem dispatch_post (env : Env) (req : Request) (hm : req.method = "POST") :
    dispatch env req = postFlow env req := by
  rw [dispatch, hm, if_neg (by decide), if_neg (by decide), if_pos rfl]

/-- A POST request that parses, passes the `body` validation and is not
spam-blocked reaches the backend delegate exactly once, with the context
`{input, perspective, akismet}` and the request handle; each enabled
checker is called exactly once, each disabled one not at all. -/
theorem handle_post_trace (env : Env) (req : Request) (input bodyV akismet : JsonVal)
    (hm : req.method = "POST")
    (hj : req.jsonResult = .ok input)
    (hb : jsAccess input "body" = .ok bodyV)
    (ht : truthy bodyV = true)
    (hs : spamStage env = .ok akismet) :
    (handle env req).2 =
      ⟨[(.obj [("input", input), ("perspective", toxicityStage env), ("akismet", akismet)], req)],
       if env.perspectiveEnabled then 1 else 0,
       if env.akismetEnabled then 1 else 0⟩ := by
  rw [handle_eq, dispatch_post env req hm]
  rcases hB : env.backend
      (.obj [("input", input), ("perspective", toxicityStage env), ("akismet", akismet)]) req
    with e | result <;>
    simp [postFlow, hj, hb, ht, hs, hB]

/-- A POST request that parses, passes validation, is not spam-blocked
and whose delegate succeeds is answered 201 with the success envelope. -/
theorem handle_post_response (env : Env) (req : Request) (input bodyV akismet result : JsonVal)
    (hm : req.method = "POST")
    (hj : req.jsonResult = .ok input)
    (hb : jsAccess input "body" = .ok bodyV)
    (ht : truthy bodyV = true)
    (hs : spamStage env = .ok akismet)
    (hr : env.backend
      (.obj [("input", input), ("perspective", toxicityStage env), ("akismet", akismet)]) req
      = .ok result) :
    (handle env req).1 =
      ⟨201, if truthy env.attributes then
              .obj [("result", result), ("backend", env.attributes)]
            else
              .obj [("result", result)]⟩ := by
  rw [handle_eq, dispatch_post env req hm]
  simp [postFlow, hj, hb, ht, hs, hr, handleErrors]

/-! Claim C1. -/

/-- C1: for every POST request whose parsed JSON body has a truthy
`body` field, when both the toxicity check and the spam check are
disabled, the backend delegate is invoked exactly once and the response
is status 201 with a `result` field equal to the delegate's return
value. -/
theorem c1_both_disabled_delegate_once_201 (env : Env) (req : Request)
    (input bodyV result : JsonVal)
    (hm : req.method = "POST")
    (hj : req.jsonResult = .ok input)
    (hb : jsAccess input "body" = .ok bodyV)
    (ht : truthy bodyV = true)
    (hp : env.perspectiveEnabled = false)
    (ha : env.akismetEnabled = false)
    (hr : env.backend (.obj [("input", input), ("perspective", .null), ("akismet", .null)]) req
      = .ok result) :
    (handle env req).2.backendCalls =
      [(.obj [("input", input), ("perspective", .null), ("akismet", .null)], req)] ∧
    (handle env req).1.status = 201 ∧
    jsAccess (handle env req).1.body "result" = .ok result := by
  have hts : toxicityStage env = .null := by rw [toxicityStage, hp]; rfl
  have hss : spamStage env = .ok .null := by rw [spamStage, ha]; rfl
  have h2 := handle_post_trace env req input bodyV .null hm hj hb ht hss
  have h1 := handle_post_response env req input bodyV .null result hm hj hb ht hss
    (by rw [hts]; exact hr)
  rw [hts] at h2
  refine ⟨by rw [h2], by rw [h1], ?_⟩
  rw [h1]
  cases hA : truthy env.attributes <;> simp [hA, jsAccess, jsLookup]

/-- Witness for C1: the baseline run answers 201 with the delegate's
value and one delegate invocation. -/
theorem c1_both_disabled_delegate_once_201_witness :
    (handle baseEnv baseReq).2.backendCalls =
      [(.obj [("input", .obj [("body", .str "nice app!")]), ("perspective", .null),
              ("akismet", .null)], baseReq)] ∧
    (handle baseEnv baseReq).1.status = 201 ∧
    jsAccess (handle baseEnv baseReq).1.body "result" = .ok (.str "ok") :=
  c1_both_disabled_delegate_once_201 baseEnv baseReq
    (.obj [("body", .str "nice app!")]) (.str "nice app!") (.str "ok")
    rfl rfl rfl (by decide) rfl rfl rfl

/-! Claim C2. -/

/-- C2: for every POST request where the spam checker is enabled,
succeeds and returns a spam verdict, and the allow-spam override is not
active, the handler responds 400 with message `Spam detected.` and the
backend delegate is never invoked. -/
theorem c2_spam_blocked_400_no_delegate (env : Env) (req : Request) (input bodyV : JsonVal)
    (hm : req.method = "POST")
    (hj : req.jsonResult = .ok input)
    (hb : jsAccess input "body" = .ok bodyV)
    (ht : truthy bodyV = true)
    (ha : env.akismetEnabled = true)
    (hv : env.akismetResponse = .ok true)
    (hallow : allowSpamOf env.ALLOW_SPAM = false) :
    (handle env req).1 =
      ⟨400, .obj [("status", .num 400), ("message", .str "Spam detected.")]⟩ ∧
    (handle env req).2.backendCalls = [] := by
  have hss : spamStage env = .error ⟨some 400, "Spam detected."⟩ := by
    rw [spamStage, ha, hv]
    simp [hallow]
  rw [handle_eq, dispatch_post env req hm]
  constructor
  · simp only [postFlow, hj, hb, ht, hss, Bool.not_true, Bool.false_eq_true, if_false]
    norm_num [handleErrors, statusOr500]
  · simp [postFlow, hj, hb, ht, hss]

/-- Witness for C2: an enabled spam checker returning `true` with the
override unset blocks the baseline POST with 400 and no delegate call. -/
theorem c2_spam_blocked_400_no_delegate_witness :
    (handle { baseEnv with akismetEnabled := true, akismetResponse := .ok true } baseReq).1 =
      ⟨400, .obj [("status", .num 400), ("message", .str "Spam detected.")]⟩ ∧
    (handle { baseEnv with akismetEnabled := true, akismetResponse := .ok true } baseReq).2.backendCalls
      = [] :=
  c2_spam_blocked_400_no_delegate
    { baseEnv with akismetEnabled := true, akismetResponse := .ok true } baseReq
    (.obj [("body", .str "nice app!")]) (.str "nice app!")
    rfl rfl rfl (by decide) rfl rfl rfl

/-! Claim C3. -/

/-- C3: for every POST request whose parsed JSON body is an object whose
`body` field is absent, the empty string, or otherwise falsy, the
handler responds 422 with message `"body" is required in request
payload` and the backend delegate is never invoked. -/
theorem c3_falsy_body_422_no_delegate (env : Env) (req : Request)
    (fields : List (String × JsonVal))
    (hm : req.method = "POST")
    (hj : req.jsonResult = .ok (.obj fields))
    (ht : truthy (jsLookup fields "body") = false) :
    (handle env req).1 =
      ⟨422, .obj [("status", .num 422),
                  ("message", .str "\"body\" is required in request payload")]⟩ ∧
    (handle env req).2.backendCalls = [] := by
  rw [handle_eq, dispatch_post env req hm]
  constructor
  · simp only [postFlow, hj, jsAccess, ht, Bool.not_false, if_true]
    norm_num [handleErrors, statusOr500]
  · simp [postFlow, hj, jsAccess, ht, Trace.empty]

/-- Witness for C3: POST `{}` is answered 422 without a delegate call. -/
theorem c3_falsy_body_422_no_delegate_witness :
    (handle baseEnv { baseReq with jsonResult := .ok (.obj []) }).1 =
      ⟨422, .obj [("status", .num 422),
                  ("message", .str "\"body\" is required in request payload")]⟩ ∧
    (handle baseEnv { baseReq with jsonResult := .ok (.obj []) }).2.backendCalls = [] :=
  c3_falsy_body_422_no_delegate baseEnv { baseReq with jsonResult := .ok (.obj []) } []
    rfl rfl (by decide)

/-! Claim C4. -/

/-- Counterexample to C4 as stated: in a concrete passing run the
delegate is invoked with a context whose keys are `input`,
`perspective`, `akismet` — there is no `toxicity` key; the toxicity
result travels under the key `perspective` (src/index.js line 104:
`backend({input, perspective, akismet}, req, res)`). -/
theorem c4_counterexample_no_toxicity_key :
    (handle baseEnv baseReq).2.backendCalls =
      [(.obj [("input", .obj [("body", .str "nice app!")]), ("perspective", .null),
              ("akismet", .null)], baseReq)] ∧
    jsKeys (.obj [("input", .obj [("body", .str "nice app!")]), ("perspective", .null),
                  ("akismet", .null)]) = ["input", "perspective", "akismet"] ∧
    ¬ "toxicity" ∈ jsKeys (.obj [("input", .obj [("body", .str "nice app!")]),
                                 ("perspective", .null), ("akismet", .null)]) :=
  ⟨rfl, rfl, by decide⟩

/-- C4 (amended): for every POST request that passes validation and is
not spam-blocked, the backend delegate is invoked with the context
object `{input, perspective, akismet}` — `input` the parsed feedback
input, `perspective` the toxicity result or null, `akismet` the spam
verdict or null — together with the request handle. -/
theorem c4_context_shape (env : Env) (req : Request) (input bodyV akismet : JsonVal)
    (hm : req.method = "POST")
    (hj : req.jsonResult = .ok input)
    (hb : jsAccess input "body" = .ok bodyV)
    (ht : truthy bodyV = true)
    (hs : spamStage env = .ok akismet) :
    (handle env req).2.backendCalls =
      [(.obj [("input", input), ("perspective", toxicityStage env), ("akismet", akismet)], req)] := by
  rw [handle_post_trace env req input bodyV akismet hm hj hb ht hs]

/-- Witness for C4 (amended): with both checkers enabled and succeeding
(score 1/2, verdict "not spam"), the delegate receives the populated
context. -/
theorem c4_context_shape_witness :
    (handle { baseEnv with
        perspectiveEnabled := true
        perspectiveResponse := .ok (.obj [("attributeScores", .obj [("TOXICITY",
          .obj [("summaryScore", .obj [("value", .num (1/2))])])])])
        akismetEnabled := true
        akismetResponse := .ok false } baseReq).2.backendCalls =
      [(.obj [("input", .obj [("body", .str "nice app!")]),
              ("perspective", .obj [("toxicity", .num (1/2))]),
              ("akismet", .obj [("spam", .bool false)])], baseReq)] :=
  c4_context_shape
    { baseEnv with
        perspectiveEnabled := true
        perspectiveResponse := .ok (.obj [("attributeScores", .obj [("TOXICITY",
          .obj [("summaryScore", .obj [("value", .num (1/2))])])])])
        akismetEnabled := true
        akismetResponse := .ok false } baseReq
    (.obj [("body", .str "nice app!")]) (.str "nice app!") (.obj [("spam", .bool false)])
    rfl rfl rfl (by decide) rfl

/-! Claim C5. -/

/-- The toxicity check failed: the analyze call rejected, or its
response does not have the `attributeScores.TOXICITY.summaryScore.value`
shape, so the extraction threw (both failures are caught in the `try`
of lines 69-75). -/
def perspectiveFailed (env : Env) : Prop :=
  (∃ e, env.perspectiveResponse = .error e) ∨
  (∃ r e, env.perspectiveResponse = .ok r ∧ extractScore r = .error e)

/-- C5: for every POST request where the toxicity checker is enabled but
its invocation fails (rejected call or malformed response), the pipeline
still completes with the toxicity slot null and the backend delegate is
still invoked, provided no spam block occurs. -/
theorem c5_toxicity_failure_nonblocking (env : Env) (req : Request)
    (input bodyV akismet : JsonVal)
    (hm : req.method = "POST")
    (hj : req.jsonResult = .ok input)
    (hb : jsAccess input "body" = .ok bodyV)
    (ht : truthy bodyV = true)
    (hs : spamStage env = .ok akismet)
    (hp : env.perspectiveEnabled = true)
    (hf : perspectiveFailed env) :
    toxicityStage env = .null ∧
    (handle env req).2.backendCalls =
      [(.obj [("input", input), ("perspective", .null), ("akismet", akismet)], req)] := by
  have hts : toxicityStage env = .null := by
    rw [toxicityStage, hp, if_pos rfl]
    rcases hf with ⟨e, he⟩ | ⟨r, e, hre, hex⟩
    · rw [he]
    · simp only [hre, hex]
  have h2 := handle_post_trace env req input bodyV akismet hm hj hb ht hs
  rw [hts] at h2
  exact ⟨hts, by rw [h2]⟩

/-- Witness for C5: a rejected analyze call with the spam checker
disabled still reaches the delegate, with a null toxicity slot. -/
theorem c5_toxicity_failure_nonblocking_witness :
    toxicityStage { baseEnv with
        perspectiveEnabled := true
        perspectiveResponse := .error ⟨none, "network down"⟩ } = .null ∧
    (handle { baseEnv with
        perspectiveEnabled := true
        perspectiveResponse := .error ⟨none, "network down"⟩ } baseReq).2.backendCalls =
      [(.obj [("input", .obj [("body", .str "nice app!")]), ("perspective", .null),
              ("akismet", .null)], baseReq)] :=
  c5_toxicity_failure_nonblocking
    { baseEnv with
        perspectiveEnabled := true
        perspectiveResponse := .error ⟨none, "network down"⟩ } baseReq
    (.obj [("body", .str "nice app!")]) (.str "nice app!") .null
    rfl rfl rfl (by decide) rfl rfl (.inl ⟨⟨none, "network down"⟩, rfl⟩)

/-! Claim C6. -/

/-- C6: for every POST request where the spam checker is enabled,
succeeds with a spam verdict, and the allow-spam override is active, the
backend delegate is invoked and receives `akismet = {spam: true}` in its
context argument. -/
theorem c6_allow_spam_override_delegate (env : Env) (req : Request) (input bodyV : JsonVal)
    (hm : req.method = "POST")
    (hj : req.jsonResult = .ok input)
    (hb : jsAccess input "body" = .ok bodyV)
    (ht : truthy bodyV = true)
    (ha : env.akismetEnabled = true)
    (hv : env.akismetResponse = .ok true)
    (hallow : allowSpamOf env.ALLOW_SPAM = true) :
    (handle env req).2.backendCalls =
      [(.obj [("input", input), ("perspective", toxicityStage env),
              ("akismet", .obj [("spam", .bool true)])], req)] := by
  have hss : spamStage env = .ok (.obj [("spam", .bool true)]) := by
    rw [spamStage, ha, hv]
    simp [hallow]
  rw [handle_post_trace env req input bodyV (.obj [("spam", .bool true)]) hm hj hb ht hss]

/-- Witness for C6: `ALLOW_SPAM=true` lets a spam verdict through to the
delegate as `{spam: true}`. -/
theorem c6_allow_spam_override_delegate_witness :
    (handle { baseEnv with
        akismetEnabled := true
        akismetResponse := .ok true
        ALLOW_SPAM := some "true" } baseReq).2.backendCalls =
      [(.obj [("input", .obj [("body", .str "nice app!")]), ("perspective", .null),
              ("akismet", .obj [("spam", .bool true)])], baseReq)] :=
  c6_allow_spam_override_delegate
    { baseEnv with
        akismetEnabled := true
        akismetResponse := .ok true
        ALLOW_SPAM := some "true" } baseReq
    (.obj [("body", .str "nice app!")]) (.str "nice app!")
    rfl rfl rfl (by decide) rfl rfl (by decide)

/-! Claim C7. -/

/-- Counterexample to C7 as stated: a delegate error carrying the
numeric status-code attribute 0 (a falsy number) escapes to the boundary
but is rendered with HTTP status 500, not 0, because line 26 computes
`error.statusCode || 500` and `0` is falsy. -/
theorem c7_counterexample_statusCode_zero :
    ({ baseEnv with backend := fun _ _ => .error ⟨some 0, "boom"⟩ } : Env).backend
        (.obj [("input", .obj [("body", .str "nice app!")]), ("perspective", .null),
               ("akismet", .null)]) baseReq = .error ⟨some 0, "boom"⟩ ∧
    (handle { baseEnv with backend := fun _ _ => .error ⟨some 0, "boom"⟩ } baseReq).1 =
      ⟨500, .obj [("status", .num 500), ("message", .str "boom")]⟩ ∧
    (500 : ℚ) ≠ 0 :=
  ⟨rfl, rfl, by norm_num⟩

/-- C7 (amended): every error escaping the dispatcher is rendered by the
single outer boundary as `{status, message}` with the error's original
message; an error with a truthy (nonzero) numeric status-code attribute
uses that code, and an error without one defaults to 500 (an attribute
equal to 0 is falsy and also defaults to 500). -/
theorem c7_error_boundary_status (e : JsError) :
    (e.statusCode = none →
      handleErrors (.error e) =
        ⟨500, .obj [("status", .num 500), ("message", .str e.message)]⟩) ∧
    (∀ c : ℚ, e.statusCode = some c → c ≠ 0 →
      handleErrors (.error e) =
        ⟨c, .obj [("status", .num c), ("message", .str e.message)]⟩) := by
  constructor
  · intro h
    simp [handleErrors, statusOr500, h]
  · intro c hc h0
    simp [handleErrors, statusOr500, hc, h0]

/-- Witness for C7 (amended): a 404-carrying error is rendered as 404
with its message. -/
theorem c7_error_boundary_status_witness :
    handleErrors (.error ⟨some 404, "not found"⟩) =
      ⟨404, .obj [("status", .num 404), ("message", .str "not found")]⟩ :=
  (c7_error_boundary_status ⟨some 404, "not found"⟩).2 404 rfl (by norm_num)

/-! Claim C8. -/

/-- C8: every GET request is answered 200 with the Info envelope
(`message`, `core` with version and the two flags, and `backend` exactly
when attributes were supplied), and neither the moderation checks nor
the backend delegate is invoked. -/
theorem c8_get_info_no_pipeline (env : Env) (req : Request) (hm : req.method = "GET") :
    (handle env req).1 = ⟨200, infoEnvelope env⟩ ∧
    (handle env req).2 = Trace.empty ∧
    jsAccess (infoEnvelope env) "message" =
      .ok (.str "Welcome to the microfeedback API. Send a POST request to send feedback.") ∧
    jsAccess (infoEnvelope env) "core" =
      .ok (.obj [("version", .str env.version),
                 ("perspectiveEnabled", .bool env.perspectiveEnabled),
                 ("akismetEnabled", .bool env.akismetEnabled)]) ∧
    jsAccess (infoEnvelope env) "backend" =
      .ok (if truthy env.attributes then env.attributes else .undefined) := by
  have hd : dispatch env req = (.ok ⟨200, infoEnvelope env⟩, Trace.empty) := by
    rw [dispatch, hm, if_neg (by decide), if_pos rfl]
  refine ⟨by rw [handle_eq, hd]; rfl, by rw [handle_eq, hd], ?_, ?_, ?_⟩ <;>
    cases hA : truthy env.attributes <;>
    simp [infoEnvelope, hA, jsAccess, jsLookup]

/-- Witness for C8: the baseline environment answers a GET with the info
envelope and an empty invocation trace. -/
theorem c8_get_info_no_pipeline_witness :
    (handle baseEnv { baseReq with method := "GET" }).1 = ⟨200, infoEnvelope baseEnv⟩ ∧
    (handle baseEnv { baseReq with method := "GET" }).2 = Trace.empty ∧
    jsAccess (infoEnvelope baseEnv) "message" =
      .ok (.str "Welcome to the microfeedback API. Send a POST request to send feedback.") ∧
    jsAccess (infoEnvelope baseEnv) "core" =
      .ok (.obj [("version", .str "1.0.0"),
                 ("perspectiveEnabled", .bool false),
                 ("akismetEnabled", .bool false)]) ∧
    jsAccess (infoEnvelope baseEnv) "backend" =
      .ok (if truthy baseEnv.attributes then baseEnv.attributes else .undefined) :=
  c8_get_info_no_pipeline baseEnv { baseReq with method := "GET" } rfl

/-! Claim C9. -/

/-- Counterexample to C9 as stated: when the enabled toxicity checker
succeeds with the out-of-range score 2, the moderation context is
populated with `{toxicity: 2}` verbatim — the handler never checks the
extracted score against [0, 1]. -/
theorem c9_counterexample_score_out_of_range :
    (handle { baseEnv with
        perspectiveEnabled := true
        perspectiveResponse := .ok (.obj [("attributeScores", .obj [("TOXICITY",
          .obj [("summaryScore", .obj [("value", .num 2)])])])]) } baseReq).2.backendCalls =
      [(.obj [("input", .obj [("body", .str "nice app!")]),
              ("perspective", .obj [("toxicity", .num 2)]), ("akismet", .null)], baseReq)] ∧
    ¬ ((2 : ℚ) ≤ 1) :=
  ⟨rfl, by norm_num⟩

/-- C9 (amended): on an enabled, successful toxicity check the value
placed in the moderation context is exactly the extracted
`summaryScore.value`, verbatim — the code performs no range validation,
so the stored score lies in [0, 1] precisely when the external service's
reported score does. -/
theorem c9_score_passed_through_verbatim (env : Env) (req : Request)
    (input bodyV akismet response v : JsonVal)
    (hm : req.method = "POST")
    (hj : req.jsonResult = .ok input)
    (hb : jsAccess input "body" = .ok bodyV)
    (ht : truthy bodyV = true)
    (hs : spamStage env = .ok akismet)
    (hp : env.perspectiveEnabled = true)
    (hre : env.perspectiveResponse = .ok response)
    (hex : extractScore response = .ok v) :
    toxicityStage env = .obj [("toxicity", v)] ∧
    (handle env req).2.backendCalls =
      [(.obj [("input", input), ("perspective", .obj [("toxicity", v)]),
              ("akismet", akismet)], req)] := by
  have hts : toxicityStage env = .obj [("toxicity", v)] := by
    rw [toxicityStage, hp, if_pos rfl]
    simp only [hre, hex]
  have h2 := handle_post_trace env req input bodyV akismet hm hj hb ht hs
  rw [hts] at h2
  exact ⟨hts, by rw [h2]⟩

/-- Witness for C9 (amended): a service score of 1/2 is stored as 1/2. -/
theorem c9_score_passed_through_verbatim_witness :
    toxicityStage { baseEnv with
        perspectiveEnabled := true
        perspectiveResponse := .ok (.obj [("attributeScores", .obj [("TOXICITY",
          .obj [("summaryScore", .obj [("value", .num (1/2))])])])]) } =
      .obj [("toxicity", .num (1/2))] ∧
    (handle { baseEnv with
        perspectiveEnabled := true
        perspectiveResponse := .ok (.obj [("attributeScores", .obj [("TOXICITY",
          .obj [("summaryScore", .obj [("value", .num (1/2))])])])]) } baseReq).2.backendCalls =
      [(.obj [("input", .obj [("body", .str "nice app!")]),
              ("perspective", .obj [("toxicity", .num (1/2))]), ("akismet", .null)], baseReq)] :=
  c9_score_passed_through_verbatim
    { baseEnv with
        perspectiveEnabled := true
        perspectiveResponse := .ok (.obj [("attributeScores", .obj [("TOXICITY",
          .obj [("summaryScore", .obj [("value", .num (1/2))])])])]) } baseReq
    (.obj [("body", .str "nice app!")]) (.str "nice app!") .null
    (.obj [("attributeScores", .obj [("TOXICITY",
      .obj [("summaryScore", .obj [("value", .num (1/2))])])])]) (.num (1/2))
    rfl rfl rfl (by decide) rfl rfl rfl rfl

/-! Claim C10. -/

/-- C10 (implicit): the handler never checks that `body` is a string —
any truthy `body` value (a number, an object, an array, `true`, …)
passes validation, and the pipeline proceeds to the checks and the
backend delegate exactly as for a non-empty string `body`: each enabled
checker runs once and the delegate is invoked exactly once with the
usual context. -/
theorem c10_truthy_nonstring_body_proceeds (env : Env) (req : Request)
    (input bodyV akismet : JsonVal)
    (hm : req.method = "POST")
    (hj : req.jsonResult = .ok input)
    (hb : jsAccess input "body" = .ok bodyV)
    (ht : truthy bodyV = true)
    (hs : spamStage env = .ok akismet) :
    (handle env req).2 =
      ⟨[(.obj [("input", input), ("perspective", toxicityStage env), ("akismet", akismet)], req)],
       if env.perspectiveEnabled then 1 else 0,
       if env.akismetEnabled then 1 else 0⟩ :=
  handle_post_trace env req input bodyV akismet hm hj hb ht hs

/-- Witness for C10: a `body` that is an empty array (truthy in JS, not
a string) reaches the delegate like any non-empty string body. -/
theorem c10_truthy_nonstring_body_proceeds_witness :
    (handle baseEnv { baseReq with jsonResult := .ok (.obj [("body", .arr [])]) }).2 =
      ⟨[(.obj [("input", .obj [("body", .arr [])]), ("perspective", .null), ("akismet", .null)],
         { baseReq with jsonResult := .ok (.obj [("body", .arr [])]) })], 0, 0⟩ :=
  c10_truthy_nonstring_body_proceeds baseEnv
    { baseReq with jsonResult := .ok (.obj [("body", .arr [])]) }
    (.obj [("body", .arr [])]) (.arr []) .null
    rfl rfl rfl rfl rfl

end MicroWishes
